import Mathlib

/-!
Verification of the quaternion CNN training repository (CIFAR-10 quaternion
networks plus a generic detection `Trainer`).

The quaternion layers operate on 5-dimensional tensors of shape
(B, C, 4, H, W).  We embed tensors as total functions from natural-number
indices to rational values: only the entries inside the declared shape are
meaningful, and every operation is written exactly as the source computes it
(index arithmetic of `permute`/`reshape`/`view` included).  Randomness
(`torch.rand`, the global torch RNG) is made explicit: random draws are
parameters of the embedded functions.  Fallible operations (shape
assertions, `view` size checks, missing-attribute accesses) return
`Option`, with `none` marking the raised error.
-/

/-- A 5D tensor (B, C, Q, H, W) as a total indexing function; entries outside
the declared shape are junk and never inspected by the theorems. -/
def Tensor5 : Type := ℕ → ℕ → ℕ → ℕ → ℕ → ℚ

/-- A 4D tensor (N, C, H, W) as a total indexing function. -/
def Tensor4 : Type := ℕ → ℕ → ℕ → ℕ → ℚ

/-- A 2D tensor (B, F) as a total indexing function. -/
def Tensor2 : Type := ℕ → ℕ → ℚ

/-- `QuaternionDropout.forward`.  `training` is `self.training`, `p` is
`self.p`, `Q` is the size of the component axis of `x` (third entry of
`x.shape`), and `r` is the draw `torch.rand(B, C, H, W)`.  The source
returns `x` untouched when not training or `p == 0`; otherwise it asserts
`Q == 4`, builds the keep mask `r > p` on (B, C, H, W), expands it over the
component axis, and returns `x * mask / (1 - p)`.  `none` is the failed
assertion. -/
def QuaternionDropout.forward (training : Bool) (p : ℚ) (Q : ℕ)
    (r : ℕ → ℕ → ℕ → ℕ → ℚ) (x : Tensor5) : Option Tensor5 :=
  if training = false ∨ p = 0 then
    some x
  else if Q = 4 then
    some (fun b c q h w => x b c q h w * (if p < r b c h w then 1 else 0) / (1 - p))
  else
    none

/-- C1: in training mode with 0 < p < 1 the dropout forward pass succeeds on a
(B, C, 4, H, W) tensor and at every (b, c, h, w) position either all four
quaternion components of the output are zero, or all four equal the input
scaled by 1/(1−p); in evaluation mode, or when p = 0, the input is returned
unchanged. -/
theorem QuaternionDropout_forward_shared_mask (p : ℚ) (r : ℕ → ℕ → ℕ → ℕ → ℚ)
    (x : Tensor5) :
    (0 < p → p < 1 →
      ∃ y, QuaternionDropout.forward true p 4 r x = some y ∧
        ∀ b c h w,
          (∀ q, y b c q h w = 0) ∨
          (∀ q, y b c q h w = x b c q h w / (1 - p)))
    ∧ (∀ Q, QuaternionDropout.forward false p Q r x = some x)
    ∧ (∀ training Q, QuaternionDropout.forward training 0 Q r x = some x) := by
  refine ⟨?_, ?_, ?_⟩
  · intro hp0 hp1
    refine ⟨fun b c q h w => x b c q h w * (if p < r b c h w then 1 else 0) / (1 - p),
      ?_, ?_⟩
    · rw [QuaternionDropout.forward]
      rw [if_neg, if_pos rfl]
      rintro (h | h)
      · exact Bool.noConfusion h
      · exact absurd h (ne_of_gt hp0)
    · intro b c h w
      by_cases hkeep : p < r b c h w
      · right
        intro q
        simp only [if_pos hkeep, mul_one]
      · left
        intro q
        simp only [if_neg hkeep, mul_zero, zero_div]
  · intro Q
    rw [QuaternionDropout.forward, if_pos (Or.inl rfl)]
  · intro training Q
    rw [QuaternionDropout.forward, if_pos (Or.inr rfl)]

/-- Witness for C1 at p = 1/2 on a concrete 1×1×4×1×1 tensor. -/
theorem QuaternionDropout_forward_shared_mask_witness :
    ∃ y, QuaternionDropout.forward true (1/2) 4 (fun _ _ _ _ => 1)
        (fun _ _ _ _ _ => 3) = some y ∧
      ∀ b c h w,
        (∀ q, y b c q h w = 0) ∨
        (∀ q, y b c q h w = (fun _ _ _ _ _ => (3 : ℚ)) b c q h w / (1 - 1/2)) :=
  (QuaternionDropout_forward_shared_mask (1/2) (fun _ _ _ _ => 1)
    (fun _ _ _ _ _ => 3)).1 (by norm_num) (by norm_num)

/-- `F.avg_pool2d` with square kernel `k` and stride `s` (no padding), acting
on one spatial slice: output (i, j) averages the k×k window anchored at
(i·s, j·s). -/
def avg_pool2d (k s : ℕ) (f : ℕ → ℕ → ℚ) : ℕ → ℕ → ℚ :=
  fun i j =>
    (∑ di ∈ Finset.range k, ∑ dj ∈ Finset.range k, f (i * s + di) (j * s + dj))
      / ((k : ℚ) * (k : ℚ))

/-- `F.adaptive_avg_pool2d (1, 1)` on one H×W spatial slice: the global mean. -/
def adaptive_avg_pool2d_one (H W : ℕ) (f : ℕ → ℕ → ℚ) : ℚ :=
  (∑ h ∈ Finset.range H, ∑ w ∈ Finset.range W, f h w) / ((H : ℚ) * (W : ℚ))

/-- `nn.MaxPool2d(kernel_size=k, stride=s, padding=0)` on one spatial slice:
output (i, j) is the maximum of the k×k window anchored at (i·s, j·s). -/
def max_pool2d (k s : ℕ) (f : ℕ → ℕ → ℚ) : ℕ → ℕ → ℚ :=
  fun i j =>
    (List.range k).foldl
      (fun acc di =>
        (List.range k).foldl
          (fun acc2 dj => max acc2 (f (i * s + di) (j * s + dj))) acc)
      (f (i * s) (j * s))

/-- `x.permute(0, 2, 1, 3, 4).reshape(B * 4, C, H, W)` on a (B, C, 4, H, W)
tensor: flat row n holds batch n / 4, component n % 4. -/
def quaternion_flatten (x : Tensor5) : Tensor4 :=
  fun n c h w => x (n / 4) c (n % 4) h w

/-- `pooled.view(B, 4, C, Ho, Wo).permute(0, 2, 1, 3, 4)`: position
(b, c, q, h, w) reads flat row b * 4 + q. -/
def quaternion_unflatten (y : Tensor4) : Tensor5 :=
  fun b c q h w => y (b * 4 + q) c h w

/-- `QuaternionAvgPool.forward`: assert the component axis is 4, flatten,
apply global average pooling when `kernel_size is None` (the stride passed to
`F.avg_pool2d` defaults to the kernel when `self.stride is None`), else
strided average pooling, and unflatten.  `none` is the failed assertion. -/
def QuaternionAvgPool.forward (kernel stride : Option ℕ) (H W Q : ℕ)
    (x : Tensor5) : Option Tensor5 :=
  if Q = 4 then
    some (quaternion_unflatten (fun n c =>
      match kernel with
      | none => fun _ _ => adaptive_avg_pool2d_one H W (quaternion_flatten x n c)
      | some k => avg_pool2d k (stride.getD k) (quaternion_flatten x n c)))
  else
    none

/-- `QuaternionMaxPool.forward`: assert the component axis is 4, flatten,
apply `self.pool = nn.MaxPool2d(k, s, 0)`, unflatten. -/
def QuaternionMaxPool.forward (k s H W Q : ℕ) (x : Tensor5) : Option Tensor5 :=
  if Q = 4 then
    some (quaternion_unflatten (fun n c => max_pool2d k s (quaternion_flatten x n c)))
  else
    none

/-- The 4D spatial slice of a (B, C, 4, H, W) tensor at component q. -/
def component_slice (x : Tensor5) (b c q : ℕ) : ℕ → ℕ → ℚ :=
  fun h w => x b c q h w

theorem quaternion_flatten_unflatten (x : Tensor5) (b c q : ℕ) (hq : q < 4) :
    ∀ h w, quaternion_flatten x (b * 4 + q) c h w = x b c q h w := by
  intro h w
  unfold quaternion_flatten
  have hdiv : (b * 4 + q) / 4 = b := by omega
  have hmod : (b * 4 + q) % 4 = q := by omega
  rw [hdiv, hmod]

/-- C6: the quaternion pooling operations commute with slicing out a
component: pooling the 5D tensor and reading component q < 4 equals applying
the corresponding 2D spatial pooling (strided average, global average, or
max) directly to the 4D slice at component q. -/
theorem quaternion_pool_commutes_with_components (k s H W b c q : ℕ)
    (x : Tensor5) (hq : q < 4) :
    (∃ y, QuaternionAvgPool.forward (some k) (some s) H W 4 x = some y ∧
      ∀ h w, y b c q h w = avg_pool2d k s (component_slice x b c q) h w)
    ∧ (∃ y, QuaternionAvgPool.forward none none H W 4 x = some y ∧
      ∀ h w, y b c q h w = adaptive_avg_pool2d_one H W (component_slice x b c q))
    ∧ (∃ y, QuaternionMaxPool.forward k s H W 4 x = some y ∧
      ∀ h w, y b c q h w = max_pool2d k s (component_slice x b c q) h w) := by
  have hslice : ∀ h w, quaternion_flatten x (b * 4 + q) c h w
      = component_slice x b c q h w :=
    quaternion_flatten_unflatten x b c q hq
  have hfun : (fun h w => quaternion_flatten x (b * 4 + q) c h w)
      = component_slice x b c q := by
    funext h w
    exact hslice h w
  have hfun2 : quaternion_flatten x (b * 4 + q) c = component_slice x b c q := hfun
  refine ⟨⟨_, rfl, ?_⟩, ⟨_, rfl, ?_⟩, ⟨_, rfl, ?_⟩⟩
  · intro h w
    show avg_pool2d k ((Option.some s).getD k)
        (quaternion_flatten x (b * 4 + q) c) h w = _
    rw [Option.getD_some, hfun2]
  · intro h w
    show adaptive_avg_pool2d_one H W (quaternion_flatten x (b * 4 + q) c) = _
    rw [hfun2]
  · intro h w
    show max_pool2d k s (quaternion_flatten x (b * 4 + q) c) h w = _
    rw [hfun2]

/-- Witness for C6 at component q = 2 on a concrete tensor with k = s = 1,
H = W = 1. -/
theorem quaternion_pool_commutes_with_components_witness :
    (∃ y, QuaternionAvgPool.forward (some 1) (some 1) 1 1 4
        (fun _ _ _ _ _ => 5) = some y ∧
      ∀ h w, y 0 0 2 h w
        = avg_pool2d 1 1 (component_slice (fun _ _ _ _ _ => 5) 0 0 2) h w)
    ∧ (∃ y, QuaternionAvgPool.forward none none 1 1 4
        (fun _ _ _ _ _ => 5) = some y ∧
      ∀ h w, y 0 0 2 h w
        = adaptive_avg_pool2d_one 1 1 (component_slice (fun _ _ _ _ _ => 5) 0 0 2))
    ∧ (∃ y, QuaternionMaxPool.forward 1 1 1 1 4
        (fun _ _ _ _ _ => 5) = some y ∧
      ∀ h w, y 0 0 2 h w
        = max_pool2d 1 1 (component_slice (fun _ _ _ _ _ => 5) 0 0 2) h w) :=
  quaternion_pool_commutes_with_components 1 1 1 1 0 0 2
    (fun _ _ _ _ _ => 5) (by norm_num)

/-- C8: each quaternion structural operation on a 5D input (dropout in
training mode with p > 0, average pooling, max pooling) fails its `assert
Q == 4` exactly when the component axis differs from 4, and completes (returns
a tensor) when the axis is exactly 4. -/
theorem quaternion_ops_assert_component_axis (p : ℚ) (kernel stride : Option ℕ)
    (k s H W Q : ℕ) (r : ℕ → ℕ → ℕ → ℕ → ℚ) (x : Tensor5) (hp : 0 < p) :
    (QuaternionDropout.forward true p Q r x = none ↔ Q ≠ 4)
    ∧ (QuaternionAvgPool.forward kernel stride H W Q x = none ↔ Q ≠ 4)
    ∧ (QuaternionMaxPool.forward k s H W Q x = none ↔ Q ≠ 4) := by
  have hp0 : p ≠ 0 := ne_of_gt hp
  refine ⟨?_, ?_, ?_⟩
  · rw [QuaternionDropout.forward,
      if_neg (by rintro (h | h) <;> first | exact Bool.noConfusion h | exact hp0 h)]
    by_cases hq : Q = 4 <;> simp [hq]
  · rw [QuaternionAvgPool.forward]
    by_cases hq : Q = 4 <;> simp [hq]
  · rw [QuaternionMaxPool.forward]
    by_cases hq : Q = 4 <;> simp [hq]

/-- Witness for C8 at p = 1/2 and component axis Q = 3 (all three assertions
fire) — instantiating the theorem at a concrete shape. -/
theorem quaternion_ops_assert_component_axis_witness :
    (QuaternionDropout.forward true (1/2) 3 (fun _ _ _ _ => 1)
        (fun _ _ _ _ _ => 0) = none ↔ (3 : ℕ) ≠ 4)
    ∧ (QuaternionAvgPool.forward none none 2 2 3 (fun _ _ _ _ _ => 0) = none
        ↔ (3 : ℕ) ≠ 4)
    ∧ (QuaternionMaxPool.forward 2 2 2 2 3 (fun _ _ _ _ _ => 0) = none
        ↔ (3 : ℕ) ≠ 4) :=
  quaternion_ops_assert_component_axis (1/2) none none 2 2 2 2 3
    (fun _ _ _ _ => 1) (fun _ _ _ _ _ => 0) (by norm_num)

/-- The module-level configuration constant `NUM_CLASSES` of the CIFAR
script. -/
def NUM_CLASSES : ℕ := 10

/-- The tail of `QResNet34.forward`: the classifier has produced a (B, F)
tensor `x` (the source builds it with `QDense(512, num_classes * 4)`, so
F = num_classes·4); the source then runs
`x.view(batch_size, NUM_CLASSES, 4)` — with the module-level constant
`NUM_CLASSES`, not the constructor argument — and takes `x[:, :, 0]`.
`view` succeeds only when the element counts agree
(B·F = B·NUM_CLASSES·4); `none` is the raised size-mismatch error. -/
def QResNet34.forward_head (B F : ℕ) (x : Tensor2) : Option Tensor2 :=
  if B * F = B * (NUM_CLASSES * 4) then
    some (fun b n => x b (n * 4 + 0))
  else
    none

/-- `QResNet34.forward_head` applied to the classifier output of a model
constructed with `num_classes` classes: the classifier emits
F = num_classes·4 features per sample. -/
def QResNet34.head_output (num_classes B : ℕ) (x : Tensor2) : Option Tensor2 :=
  QResNet34.forward_head B (num_classes * 4) x

/-- C3 (code bug): `QResNet34.forward` reshapes the classifier output with
the hardcoded global `NUM_CLASSES = 10` instead of the constructor's
`num_classes`, so for num_classes = 5 and batch size 1 the view fails
(size mismatch) instead of producing (1, 5) logits; for num_classes = 10 the
head does return the real components, logit (b, n) being entry 4·n of row b. -/
theorem QResNet34_head_uses_global_NUM_CLASSES :
    QResNet34.head_output 5 1 (fun _ _ => 0) = none
    ∧ (∀ B (x : Tensor2), ∃ y, QResNet34.head_output 10 B x = some y ∧
        ∀ b n, y b n = x b (n * 4)) := by
  constructor
  · rw [QResNet34.head_output, QResNet34.forward_head]
    norm_num [NUM_CLASSES]
  · intro B x
    refine ⟨fun b n => x b (n * 4 + 0), ?_, fun b n => rfl⟩
    rw [QResNet34.head_output, QResNet34.forward_head,
      if_pos (by norm_num [NUM_CLASSES])]

/-- The validation-checkpoint state the `Trainer` keeps: `__init__` sets
`self.best_map = 0.0` and `self.best_epoch = 0`. -/
structure TrainerVal where
  best_map : ℚ
  best_epoch : ℕ

/-- The state right after `Trainer.__init__`. -/
def Trainer.init_val : TrainerVal :=
  { best_map := 0, best_epoch := 0 }

/-- `Trainer.validate_and_save` at epoch `epoch` with validation metric
`map50`: if `map50 > self.best_map` update the bests and save a checkpoint
with `is_best=True`; additionally save a periodic checkpoint when
`epoch % 10 == 0`.  Returns (new state, best save occurred, periodic save
occurred). -/
def Trainer.validate_and_save (s : TrainerVal) (epoch : ℕ) (map50 : ℚ) :
    TrainerVal × Bool × Bool :=
  let upd :=
    if s.best_map < map50 then
      ({ best_map := map50, best_epoch := epoch }, true)
    else
      (s, false)
  (upd.1, upd.2, decide (epoch % 10 = 0))

/-- Run `validate_and_save` over consecutive epochs with the given metric
sequence, collecting the best-save flags. -/
def Trainer.best_save_flags : TrainerVal → ℕ → List ℚ → List Bool
  | _, _, [] => []
  | s, epoch, m :: ms =>
      let r := Trainer.validate_and_save s epoch m
      r.2.1 :: Trainer.best_save_flags r.1 (epoch + 1) ms

/-- C4: a best checkpoint is saved iff the validation map50 strictly exceeds
the best seen so far (initialized to 0), a periodic checkpoint is saved iff
the epoch is a multiple of 10, and on the metric sequence
[0.10, 0.25, 0.20, 0.30] over epochs 0..3 the best saves happen exactly at
epochs 0, 1 and 3. -/
theorem Trainer_validate_and_save_spec :
    (∀ s epoch map50,
      ((Trainer.validate_and_save s epoch map50).2.1 = true ↔ s.best_map < map50)
      ∧ ((Trainer.validate_and_save s epoch map50).2.2 = true ↔ epoch % 10 = 0))
    ∧ Trainer.init_val.best_map = 0
    ∧ Trainer.best_save_flags Trainer.init_val 0 [1/10, 1/4, 1/5, 3/10]
        = [true, true, false, true] := by
  refine ⟨?_, rfl, ?_⟩
  · intro s epoch map50
    constructor
    · rw [Trainer.validate_and_save]
      by_cases h : s.best_map < map50 <;> simp [h]
    · rw [Trainer.validate_and_save]
      simp
  · norm_num [Trainer.best_save_flags, Trainer.validate_and_save, Trainer.init_val]

/-- `total_loss = box_loss + 0.5 * dfl_loss + cls_loss + 0.1 * quat_loss`
from `Trainer.train_one_epoch`. -/
def Trainer.total_loss (box_loss dfl_loss cls_loss quat_loss : ℚ) : ℚ :=
  box_loss + 1/2 * dfl_loss + cls_loss + 1/10 * quat_loss

/-- Modelled from the spec: the loss as a weighted sum with the fixed weights
(1.0, 0.5, 1.0, 0.1) over the 4-tuple (box, dfl, cls, quat) and no other
terms. -/
def spec_loss_weights : List ℚ := [1, 1/2, 1, 1/10]

/-- Modelled from the spec: dot product of the fixed weight vector with a
loss vector. -/
def spec_weighted_total (losses : List ℚ) : ℚ :=
  ((spec_loss_weights.zip losses).map fun wl => wl.1 * wl.2).sum

/-- C7: the loss sent to the backward pass equals the weighted sum with the
exact constant weights (1.0, 0.5, 1.0, 0.1) over (box, dfl, cls, quat) and
nothing else. -/
theorem Trainer_total_loss_weights (box_loss dfl_loss cls_loss quat_loss : ℚ) :
    Trainer.total_loss box_loss dfl_loss cls_loss quat_loss
      = spec_weighted_total [box_loss, dfl_loss, cls_loss, quat_loss] := by
  rw [Trainer.total_loss, spec_weighted_total, spec_loss_weights]
  simp [List.zip, List.zipWith, List.sum_cons]
  ring

/-- `self.dropout_rates['increment']` from `QResNet34.__init__`: 0.05. -/
def QResNet34.dropout_increment : ℚ := 1/20

/-- `self.dropout_rates['initial']` from `QResNet34.__init__`:
[.1, .15, .2, .2, .25] for [conv2_x, conv3_x, conv4_x, conv5_x, classifier]. -/
def QResNet34.initial_rates : List ℚ := [1/10, 3/20, 1/5, 1/5, 1/4]

/-- The mutable dropout state of a `QResNet34`: the stored schedule
`current_rates` plus, per residual stage, the (dropout1.p, dropout2.p) pair
of every `QuaternionBasicBlock`, and the classifier `nn.Dropout` probability
(`self.classifier[3].p`). -/
structure QResNet34Drop where
  current_rates : List ℚ
  conv2_x : List (ℚ × ℚ)
  conv3_x : List (ℚ × ℚ)
  conv4_x : List (ℚ × ℚ)
  conv5_x : List (ℚ × ℚ)
  classifier_p : ℚ

/-- The in-place loop
`self.current_rates[i] = min(0.5, self.current_rates[i] + increment)`. -/
def QResNet34.update_rates (rates : List ℚ) : List ℚ :=
  rates.map fun r => min (1/2) (r + QResNet34.dropout_increment)

/-- `QResNet34.update_dropout_rates`: bump every stored rate (clamped at
0.5), then push `current_rates[i]` into both dropout modules of every block
of stage i (`_update_block_dropout`) and `current_rates[4]` into the
classifier dropout. -/
def QResNet34.update_dropout_rates (s : QResNet34Drop) : QResNet34Drop :=
  let nr := QResNet34.update_rates s.current_rates
  { current_rates := nr
    conv2_x := s.conv2_x.map fun _ => (nr.getD 0 0, nr.getD 0 0)
    conv3_x := s.conv3_x.map fun _ => (nr.getD 1 0, nr.getD 1 0)
    conv4_x := s.conv4_x.map fun _ => (nr.getD 2 0, nr.getD 2 0)
    conv5_x := s.conv5_x.map fun _ => (nr.getD 3 0, nr.getD 3 0)
    classifier_p := nr.getD 4 0 }

/-- The dropout state right after `QResNet34.__init__`: stages of 3, 4, 6, 3
blocks built with the initial rates, and `nn.Dropout(p=0.3)` in the
classifier. -/
def QResNet34.init_drop : QResNet34Drop :=
  { current_rates := QResNet34.initial_rates
    conv2_x := List.replicate 3 (1/10, 1/10)
    conv3_x := List.replicate 4 (3/20, 3/20)
    conv4_x := List.replicate 6 (1/5, 1/5)
    conv5_x := List.replicate 3 (1/5, 1/5)
    classifier_p := 3/10 }

theorem list_forall2_map_self (f : ℚ → ℚ) :
    ∀ l : List ℚ, List.Forall₂ (fun a b => b = f a) l (l.map f)
  | [] => List.Forall₂.nil
  | a :: l => List.Forall₂.cons rfl (list_forall2_map_self f l)

theorem QResNet34.update_rates_le_half (l : List ℚ) :
    ∀ r ∈ QResNet34.update_rates l, r ≤ 1/2 := by
  intro r hr
  rw [QResNet34.update_rates, List.mem_map] at hr
  obtain ⟨a, _, rfl⟩ := hr
  exact min_le_left _ _

theorem QResNet34.update_rates_mono (l : List ℚ) (hl : ∀ r ∈ l, r ≤ 1/2) :
    List.Forall₂ (· ≤ ·) l (QResNet34.update_rates l) := by
  induction l with
  | nil => exact List.Forall₂.nil
  | cons a l ih =>
    refine List.Forall₂.cons ?_ (ih fun r hr => hl r (List.mem_cons_of_mem a hr))
    have ha : a ≤ 1/2 := hl a (List.mem_cons_self a l)
    have : a ≤ a + QResNet34.dropout_increment := by
      rw [QResNet34.dropout_increment]
      linarith
    exact le_min ha this

theorem QResNet34.iterate_rates_le_half (n : ℕ) :
    ∀ r ∈ (QResNet34.update_dropout_rates^[n] QResNet34.init_drop).current_rates,
      r ≤ 1/2 := by
  induction n with
  | zero =>
    intro r hr
    rw [Function.iterate_zero_apply] at hr
    rw [QResNet34.init_drop] at hr
    simp only [QResNet34.initial_rates, List.mem_cons, List.not_mem_nil, or_false] at hr
    rcases hr with rfl | rfl | rfl | rfl | rfl <;> norm_num
  | succ n ih =>
    intro r hr
    rw [Function.iterate_succ_apply'] at hr
    exact QResNet34.update_rates_le_half _ r hr

/-- C5: one call of `update_dropout_rates` rewrites every stored rate r to
min(0.5, r + 0.05) (the configured increment, clamped at 0.5) and writes the
new stage rates into both dropout modules of every residual block and into
the classifier dropout; under repeated calls from the constructed model every
stored rate is non-decreasing and never exceeds 0.5. -/
theorem QResNet34_update_dropout_rates_spec :
    (∀ s : QResNet34Drop,
      List.Forall₂ (fun old new => new = min (1/2) (old + QResNet34.dropout_increment))
        s.current_rates (QResNet34.update_dropout_rates s).current_rates)
    ∧ (∀ s : QResNet34Drop,
        (∀ pq ∈ (QResNet34.update_dropout_rates s).conv2_x,
          pq = ((QResNet34.update_dropout_rates s).current_rates.getD 0 0,
                (QResNet34.update_dropout_rates s).current_rates.getD 0 0))
        ∧ (∀ pq ∈ (QResNet34.update_dropout_rates s).conv3_x,
          pq = ((QResNet34.update_dropout_rates s).current_rates.getD 1 0,
                (QResNet34.update_dropout_rates s).current_rates.getD 1 0))
        ∧ (∀ pq ∈ (QResNet34.update_dropout_rates s).conv4_x,
          pq = ((QResNet34.update_dropout_rates s).current_rates.getD 2 0,
                (QResNet34.update_dropout_rates s).current_rates.getD 2 0))
        ∧ (∀ pq ∈ (QResNet34.update_dropout_rates s).conv5_x,
          pq = ((QResNet34.update_dropout_rates s).current_rates.getD 3 0,
                (QResNet34.update_dropout_rates s).current_rates.getD 3 0))
        ∧ (QResNet34.update_dropout_rates s).classifier_p
            = (QResNet34.update_dropout_rates s).current_rates.getD 4 0)
    ∧ (∀ n : ℕ,
        List.Forall₂ (· ≤ ·)
          (QResNet34.update_dropout_rates^[n] QResNet34.init_drop).current_rates
          (QResNet34.update_dropout_rates^[n + 1] QResNet34.init_drop).current_rates
        ∧ ∀ r ∈ (QResNet34.update_dropout_rates^[n] QResNet34.init_drop).current_rates,
            r ≤ 1/2) := by
  refine ⟨?_, ?_, ?_⟩
  · intro s
    exact list_forall2_map_self _ s.current_rates
  · intro s
    refine ⟨?_, ?_, ?_, ?_, rfl⟩ <;>
      · intro pq hq
        rw [QResNet34.update_dropout_rates] at hq ⊢
        simp only [List.mem_map] at hq
        obtain ⟨a, _, rfl⟩ := hq
        rfl
  · intro n
    refine ⟨?_, QResNet34.iterate_rates_le_half n⟩
    rw [Function.iterate_succ_apply']
    exact QResNet34.update_rates_mono _ (QResNet34.iterate_rates_le_half n)

/-- The index array `MultiAugmentDataset.__init__` builds in training mode
before shuffling: `augmentations_per_image` copies of each base index, in
order. -/
def MultiAugmentDataset.build_indices (n m : ℕ) : List ℕ :=
  (List.range n).flatMap fun idx => List.replicate m idx

/-- The two augmentation pipelines of `MultiAugmentDataset`: `weak_transform`
(crop + flip + normalize) and `strong_transform`
(crop + flip + AutoAugment + normalize + Cutout). -/
inductive AugPolicy where
  | weak
  | strong
  deriving DecidableEq

/-- The transform branch taken by `MultiAugmentDataset.__getitem__` in
training mode: weak when `index % self.augmentations_per_image == 0`, strong
otherwise. -/
def MultiAugmentDataset.getitem_policy (m index : ℕ) : AugPolicy :=
  if index % m = 0 then AugPolicy.weak else AugPolicy.strong

/-- `MultiAugmentDataset.__len__` in training mode:
`len(self.dataset) * self.augmentations_per_image`. -/
def MultiAugmentDataset.len (n m : ℕ) : ℕ := n * m

theorem MultiAugmentDataset.count_build_indices (m : ℕ) :
    ∀ n idx, (MultiAugmentDataset.build_indices n m).count idx
      = if idx < n then m else 0 := by
  intro n
  induction n with
  | zero =>
    intro idx
    simp [MultiAugmentDataset.build_indices]
  | succ n ih =>
    intro idx
    rw [MultiAugmentDataset.build_indices, List.range_succ, List.flatMap_append,
      List.count_append]
    rw [show (List.range n).flatMap (fun idx => List.replicate m idx)
      = MultiAugmentDataset.build_indices n m from rfl, ih idx]
    simp only [List.flatMap_cons, List.flatMap_nil, List.append_nil,
      List.count_replicate, beq_iff_eq]
    split_ifs <;> omega

theorem MultiAugmentDataset.length_build_indices (n m : ℕ) :
    (MultiAugmentDataset.build_indices n m).length = n * m := by
  induction n with
  | zero => simp [MultiAugmentDataset.build_indices]
  | succ n ih =>
    rw [MultiAugmentDataset.build_indices, List.range_succ, List.flatMap_append,
      List.length_append]
    rw [show (List.range n).flatMap (fun idx => List.replicate m idx)
      = MultiAugmentDataset.build_indices n m from rfl, ih]
    simp [Nat.succ_mul]

/-- C2: in training mode the precomputed (and arbitrarily shuffled) index
array contains every base index idx < n exactly m = augmentations_per_image
times, its length — and the reported dataset length — is n·m, the weak
transform is chosen exactly at augmented indices divisible by m (all others
get the strong transform), and for the 10-sample, m = 2 scenario the epoch
has exactly 20 samples. -/
theorem MultiAugmentDataset_expansion_spec (n m : ℕ) (shuffled : List ℕ)
    (hperm : (MultiAugmentDataset.build_indices n m).Perm shuffled) :
    (∀ idx, idx < n → shuffled.count idx = m)
    ∧ shuffled.length = MultiAugmentDataset.len n m
    ∧ MultiAugmentDataset.len n m = n * m
    ∧ (∀ i, (MultiAugmentDataset.getitem_policy m i = AugPolicy.weak ↔ i % m = 0)
        ∧ (MultiAugmentDataset.getitem_policy m i = AugPolicy.strong ↔ i % m ≠ 0))
    ∧ MultiAugmentDataset.len 10 2 = 20 := by
  refine ⟨?_, ?_, rfl, ?_, rfl⟩
  · intro idx hidx
    rw [← hperm.count_eq]
    rw [MultiAugmentDataset.count_build_indices, if_pos hidx]
  · rw [← hperm.length_eq, MultiAugmentDataset.len]
    exact MultiAugmentDataset.length_build_indices n m
  · intro i
    rw [MultiAugmentDataset.getitem_policy]
    by_cases h : i % m = 0 <;> simp [h]

/-- Witness for C2 with base size 3, multiplier 2 and the unshuffled
permutation. -/
theorem MultiAugmentDataset_expansion_spec_witness :
    (∀ idx, idx < 3 → (MultiAugmentDataset.build_indices 3 2).count idx = 2)
    ∧ (MultiAugmentDataset.build_indices 3 2).length = MultiAugmentDataset.len 3 2
    ∧ MultiAugmentDataset.len 3 2 = 3 * 2
    ∧ (∀ i, (MultiAugmentDataset.getitem_policy 2 i = AugPolicy.weak ↔ i % 2 = 0)
        ∧ (MultiAugmentDataset.getitem_policy 2 i = AugPolicy.strong ↔ i % 2 ≠ 0))
    ∧ MultiAugmentDataset.len 10 2 = 20 :=
  MultiAugmentDataset_expansion_spec 3 2 _ (List.Perm.refl _)

/-- `MultiAugmentDataset.__getitem__` in training mode, with the torch global
RNG made explicit.  `S` is the RNG state type, `manual_seed` models
`torch.manual_seed`, and the two transform pipelines consume and return the
RNG state (torchvision transforms draw only from the torch global RNG).
`g` is the global RNG state at call time; the source overwrites it with
`torch.manual_seed(index)` before branching on
`index % self.augmentations_per_image`. -/
def MultiAugmentDataset.getitem_train (Img Lab S : Type)
    (indices : List ℕ) (base : ℕ → Img × Lab) (m : ℕ)
    (manual_seed : ℕ → S) (weak_transform strong_transform : S → Img → Img × S)
    (g : S) (index : ℕ) : (Img × Lab) × S :=
  let real_idx := indices.getD index 0
  let il := base real_idx
  let g1 := manual_seed index
  if index % m = 0 then
    let ts := weak_transform g1 il.1
    ((ts.1, il.2), ts.2)
  else
    let ts := strong_transform g1 il.1
    ((ts.1, il.2), ts.2)

/-- C9: for a fixed constructed dataset (same precomputed `indices`, same
base data, same transforms), `__getitem__(index)` returns the same
(transformed image, label) pair regardless of the ambient torch RNG state —
the call reseeds with `torch.manual_seed(index)` first — so repeated calls
with the same index, within one run or across runs, agree. -/
theorem MultiAugmentDataset_getitem_deterministic (Img Lab S : Type)
    (indices : List ℕ) (base : ℕ → Img × Lab) (m : ℕ)
    (manual_seed : ℕ → S) (weak_transform strong_transform : S → Img → Img × S)
    (g g2 : S) (index : ℕ) :
    (MultiAugmentDataset.getitem_train Img Lab S indices base m manual_seed
        weak_transform strong_transform g index).1
      = (MultiAugmentDataset.getitem_train Img Lab S indices base m manual_seed
        weak_transform strong_transform g2 index).1 := rfl

/-- The column names of the `Trainer` CSV training log. -/
inductive CsvColname where
  | epoch
  | batch
  | total_loss
  | box_loss
  | dfl_loss
  | quat_loss
  deriving DecidableEq

/-- One CSV cell: a header column name, or a numeric datum. -/
inductive CsvCell where
  | col : CsvColname → CsvCell
  | nat : ℕ → CsvCell
  | rat : ℚ → CsvCell
  deriving DecidableEq

/-- The header row `Trainer._initialize_csv` writes:
epoch, batch, total_loss, box_loss, dfl_loss, quat_loss. -/
def csv_header : List CsvCell :=
  [CsvCell.col CsvColname.epoch, CsvCell.col CsvColname.batch,
   CsvCell.col CsvColname.total_loss, CsvCell.col CsvColname.box_loss,
   CsvCell.col CsvColname.dfl_loss, CsvCell.col CsvColname.quat_loss]

/-- The slice of the `Trainer` object the CSV log depends on: the
`self.csv_file` attribute.  `Trainer.__init__` assigns `train_log` and the
log directory but never assigns `csv_file`, so on a fresh object the
attribute is absent (`none`); reading it raises AttributeError. -/
structure TrainerCsv where
  csv_file : Option ℕ

/-- The CSV-relevant state right after `Trainer.__init__`. -/
def Trainer.init_csv_attr : TrainerCsv := { csv_file := none }

/-- `Trainer._initialize_csv`: read `self.csv_file` (AttributeError — `none`
— when `__init__` never set it), open it in mode 'w' and write the header
row.  The file system is a map from path to list of rows. -/
def Trainer.initialize_csv (t : TrainerCsv) (fs : ℕ → List (List CsvCell)) :
    Option (ℕ → List (List CsvCell)) :=
  match t.csv_file with
  | none => none
  | some path => some (fun p => if p = path then [csv_header] else fs p)

/-- `Trainer._log_to_csv`: read `self.csv_file`, open it in mode 'a' and
append the single row [epoch, batch, total_loss, box_loss, dfl_loss,
quat_loss]. -/
def Trainer.log_to_csv (t : TrainerCsv) (fs : ℕ → List (List CsvCell))
    (epoch batch : ℕ) (total_loss box_loss dfl_loss quat_loss : ℚ) :
    Option (ℕ → List (List CsvCell)) :=
  match t.csv_file with
  | none => none
  | some path =>
    some (fun p =>
      if p = path then
        fs p ++ [[CsvCell.nat epoch, CsvCell.nat batch, CsvCell.rat total_loss,
          CsvCell.rat box_loss, CsvCell.rat dfl_loss, CsvCell.rat quat_loss]]
      else fs p)

/-- C10 counterexample: on a freshly constructed `Trainer`, `__init__` never
assigned `self.csv_file`, so calling `_initialize_csv` raises
(AttributeError) instead of creating the log file. -/
theorem Trainer_initialize_csv_fresh_fails :
    Trainer.initialize_csv Trainer.init_csv_attr (fun _ => []) = none := rfl

/-- C10 (amended): provided `self.csv_file` has been assigned a path,
`_initialize_csv` creates that file containing exactly the header row
epoch, batch, total_loss, box_loss, dfl_loss, quat_loss, and each call to
`_log_to_csv` appends exactly one data row, leaving every previously written
row and every other file untouched. -/
theorem Trainer_csv_log_append_only (t : TrainerCsv) (path : ℕ)
    (hpath : t.csv_file = some path) (fs : ℕ → List (List CsvCell))
    (epoch batch : ℕ) (total_loss box_loss dfl_loss quat_loss : ℚ) :
    (∃ fs1, Trainer.initialize_csv t fs = some fs1
      ∧ fs1 path = [csv_header]
      ∧ ∀ p, p ≠ path → fs1 p = fs p)
    ∧ (∃ fs2, Trainer.log_to_csv t fs epoch batch total_loss box_loss
          dfl_loss quat_loss = some fs2
      ∧ fs2 path = fs path
          ++ [[CsvCell.nat epoch, CsvCell.nat batch, CsvCell.rat total_loss,
               CsvCell.rat box_loss, CsvCell.rat dfl_loss, CsvCell.rat quat_loss]]
      ∧ ∀ p, p ≠ path → fs2 p = fs p) := by
  rw [Trainer.initialize_csv, Trainer.log_to_csv, hpath]
  constructor
  · refine ⟨_, rfl, ?_, ?_⟩
    · simp
    · intro p hp
      simp [hp]
  · refine ⟨_, rfl, ?_, ?_⟩
    · simp
    · intro p hp
      simp [hp]

/-- Witness for C10 (amended) with the path set to 0 on an empty file
system. -/
theorem Trainer_csv_log_append_only_witness :
    (∃ fs1, Trainer.initialize_csv { csv_file := some 0 } (fun _ => []) = some fs1
      ∧ fs1 0 = [csv_header]
      ∧ ∀ p, p ≠ 0 → fs1 p = (fun _ => ([] : List (List CsvCell))) p)
    ∧ (∃ fs2, Trainer.log_to_csv { csv_file := some 0 } (fun _ => []) 1 2
          (3/2) (1/2) (1/4) (1/8) = some fs2
      ∧ fs2 0 = (fun _ => ([] : List (List CsvCell))) 0
          ++ [[CsvCell.nat 1, CsvCell.nat 2, CsvCell.rat (3/2),
               CsvCell.rat (1/2), CsvCell.rat (1/4), CsvCell.rat (1/8)]]
      ∧ ∀ p, p ≠ 0 → fs2 p = (fun _ => ([] : List (List CsvCell))) p) :=
  Trainer_csv_log_append_only { csv_file := some 0 } 0 rfl (fun _ => [])
    1 2 (3/2) (1/2) (1/4) (1/8)
